import Mathlib

/-!
Verification development for a serial-modem management tool
(`sim_gui_api.py`, `scan_phone_number.py`, `scan_phone_number_ussd.py`,
`sms_one_com.py`).

The Python code is shallowly embedded: pure text-scanning functions become
Lean functions on `List Char` / `String`; stateful code (the session
registry, `ModemSession.open`, the listener loop, the one-shot probes)
becomes explicit state passing over small structures, with every fallible
serial-port interaction supplied by an oracle of `Except`-valued results so
that raising and catching of Python exceptions is explicit.

Modelling conventions:
- Python `str` is modelled by `String` at the interfaces and `List Char`
  inside scanners; `bytes.decode(errors="ignore")` output is modelled as the
  decoded string directly.
- The regex fragments used by the code (`\s`, `\d`, `str.strip`,
  `str.splitlines`) are modelled over their ASCII behaviour, which is the
  alphabet the device protocol uses.
- Wall-clock timestamps (`time.time()`) and `time.sleep` pacing are not part
  of the data model; a sleep performed by the listener loop is recorded as an
  explicit action.
-/

namespace SimTool

/-- ASCII fragment of Python's whitespace class (`\s`, `str.strip`,
`str.isspace`): space, tab, newline, carriage return, vertical tab, form
feed. -/
def isPySpace (c : Char) : Bool :=
  c == ' ' || c == '\t' || c == '\n' || c == '\x0d' || c == Char.ofNat 11 || c == Char.ofNat 12

/-- Python `str.strip()` on a character list: drop whitespace from both
ends. -/
def pyStrip (l : List Char) : List Char :=
  ((l.dropWhile isPySpace).reverse.dropWhile isPySpace).reverse

/-- Python `str.strip()` on `String`. -/
def pyStripS (s : String) : String :=
  (pyStrip s.data).asString

/-- Worker for `splitLines`: Python `str.splitlines()` over the ASCII line
breaks `\n`, `\r`, `\r\n`; a trailing break does not produce a final empty
line. -/
def splitLinesGo : List Char → List Char → List (List Char)
  | [], acc => if acc.isEmpty then [] else [acc.reverse]
  | '\x0d' :: '\n' :: rest, acc => acc.reverse :: splitLinesGo rest []
  | '\x0d' :: rest, acc => acc.reverse :: splitLinesGo rest []
  | '\n' :: rest, acc => acc.reverse :: splitLinesGo rest []
  | c :: rest, acc => splitLinesGo rest (c :: acc)

/-- Python `str.splitlines()` (ASCII breaks). -/
def splitLines (l : List Char) : List (List Char) :=
  splitLinesGo l []

/-- Does `tag` occur as a contiguous substring of the input?  Models
Python's `tag in line`. -/
def containsSub (tag : List Char) : List Char → Bool
  | [] => false
  | c :: rest => List.isPrefixOf tag (c :: rest) || containsSub tag rest

/-- Suffix of the input following the first occurrence of `tag`, if `tag`
occurs (leftmost-occurrence semantics of a literal regex prefix). -/
def afterFirstTag (tag : List Char) : List Char → Option (List Char)
  | [] => none
  | c :: rest =>
    if List.isPrefixOf tag (c :: rest) then some (List.drop tag.length (c :: rest))
    else afterFirstTag tag rest

/-- Lazy search for `"([^"]+)"` (as in `re.search(r'...*?"([^"]+)"', line)`
after the literal tag): advance one position at a time and succeed at the
first position holding a quote that is followed by a nonempty run of
non-quote characters and a closing quote. -/
def scanQuoted : List Char → Option (List Char)
  | [] => none
  | '"' :: rest =>
    let content := rest.takeWhile (fun c => c != '"')
    if content.isEmpty then scanQuoted rest
    else if (rest.dropWhile (fun c => c != '"')).isEmpty then scanQuoted rest
    else some content
  | _ :: rest => scanQuoted rest

/-- The `+CMT:` tag. -/
def cmtTag : List Char := ['+', 'C', 'M', 'T', ':']

/-- The `+CNUM:` tag. -/
def cnumTag : List Char := ['+', 'C', 'N', 'U', 'M', ':']

/-- After the `+CMT:` tag: `\s*"([^"]+)"` with the quote required
immediately after the (greedily consumed) whitespace run. -/
def cmtQuotedAfterTag (l : List Char) : Option (List Char) :=
  match l.dropWhile isPySpace with
  | '"' :: rest =>
    let content := rest.takeWhile (fun c => c != '"')
    if content.isEmpty then none
    else if (rest.dropWhile (fun c => c != '"')).isEmpty then none
    else some content
  | _ => none

/-- `parse_cmt_header` (`sim_gui_api.py`, `sms_one_com.py`):
`re.search(r'\+CMT:\s*"([^"]+)"', line)`, leftmost-start semantics — try
every occurrence of the literal tag in order, succeed at the first one
followed by `\s*` and a nonempty quoted group. -/
def parse_cmt_headerL : List Char → Option (List Char)
  | [] => none
  | c :: rest =>
    if List.isPrefixOf cmtTag (c :: rest) then
      match cmtQuotedAfterTag (List.drop 5 (c :: rest)) with
      | some s => some s
      | none => parse_cmt_headerL rest
    else parse_cmt_headerL rest

/-- `parse_cmt_header` on `String`. -/
def parse_cmt_header (line : String) : Option String :=
  (parse_cmt_headerL line.data).map List.asString

/-- One line of `parse_cnum`:
`re.search(r'\+CNUM:.*?"([^"]+)"', line)` — after the first occurrence of
the tag, the lazy `.*?` finds the first quoted nonempty group anywhere in
the remainder of the line. -/
def cnumLineL (line : List Char) : Option (List Char) :=
  match afterFirstTag cnumTag line with
  | some rest => scanQuoted rest
  | none => none

/-- `parse_cnum` (`scan_phone_number.py`): scan the response line by line;
on a line where the regex matches, strip the captured group; return it if
nonempty, otherwise keep scanning subsequent lines.  (The code's
`if "+CNUM:" in line` guard is subsumed: the regex itself requires the
literal tag.) -/
def parse_cnumL (resp : List Char) : Option (List Char) :=
  (splitLines resp).findSome? fun line =>
    match cnumLineL line with
    | some g =>
      let n := pyStrip g
      if n.isEmpty then none else some n
    | none => none

/-- `parse_cnum` on `String`. -/
def parse_cnum (resp : String) : Option String :=
  (parse_cnumL resp.data).map List.asString

/-- Normalisation performed by `extract_msisdn_from_text`
(`scan_phone_number_ussd.py`) and `extract_msisdn` (`test_one_com.py`):
`text.replace("​", "").replace("\xa0", " ")` — zero-width spaces are
removed, non-breaking spaces are replaced by an ordinary space. -/
def normalizeUssdText (l : List Char) : List Char :=
  (l.filter (fun c => c != Char.ofNat 0x200B)).map
    (fun c => if c = Char.ofNat 0xA0 then ' ' else c)

/-- One alternation attempt of `re.findall(r'(84\d{8,10}|0\d{8,10})', _)`
at a fixed start position: `84` followed by a greedy run of 8 to 10 digits,
or else `0` followed by a greedy run of 8 to 10 digits. -/
def msisdnAt : List Char → Option (List Char)
  | '8' :: '4' :: rest =>
    if 8 ≤ (rest.takeWhile Char.isDigit).length then
      some ('8' :: '4' :: (rest.takeWhile Char.isDigit).take 10)
    else none
  | '0' :: rest =>
    if 8 ≤ (rest.takeWhile Char.isDigit).length then
      some ('0' :: (rest.takeWhile Char.isDigit).take 10)
    else none
  | _ => none

/-- Leftmost match of the MSISDN pattern: try every start position from the
left, return the first success (the head of `re.findall`'s result). -/
def findMsisdn : List Char → Option (List Char)
  | [] => none
  | c :: rest =>
    match msisdnAt (c :: rest) with
    | some m => some m
    | none => findMsisdn rest

/-- `extract_msisdn_from_text` (`scan_phone_number_ussd.py`; identically
`extract_msisdn` in `test_one_com.py`): normalise, then first MSISDN
candidate in document order. -/
def extract_msisdn_from_text (text : String) : Option String :=
  (findMsisdn (normalizeUssdText text.data)).map List.asString

/-! ## Modem session and session registry (`sim_gui_api.py`) -/

/-- A pyserial handle as far as the code observes it: `is_open` is a flag
set by the constructor and cleared by `close()`. -/
structure SerialHandle where
  isOpen : Bool
deriving DecidableEq

/-- An event pushed onto the shared GUI `event_queue` by `_push_log` /
`_push_sms`. -/
inductive GuiEvent
  | log (text : String)
  | sms (sender : Option String) (text : String)
deriving DecidableEq

/-- One record of `ModemSession.sms_store` (the `time.time()` timestamp is
outside the data model). -/
structure SmsRec where
  port : String
  sender : Option String
  text : String
deriving DecidableEq

/-- `ModemSession` state: `sid` is a model artifact identifying the Python
object (so that "same object" is expressible); the remaining fields are the
session's own mutable attributes. -/
structure ModemSession where
  sid : Nat
  port : String
  ser : Option SerialHandle
  running : Bool
  threadStarted : Bool
  sms_store : List SmsRec
deriving DecidableEq

/-- Results of the fallible serial interactions performed by
`ModemSession.open`: the `serial.Serial` constructor and the four
`_send_at_block` exchanges (`AT`, `AT+CMGF=1`, `AT+CSCS="GSM"`,
`AT+CNMI=2,2,0,0,0`), each either raising (`Except.error`) or returning the
drained response text. -/
structure OpenOracle where
  openResult : Except String Unit
  atResp : Except String String
  cmgfResp : Except String String
  cscsResp : Except String String
  cnmiResp : Except String String

/-- `ModemSession._send_at_block`: raises `"Serial not open"` when the
channel is absent or closed, otherwise performs the exchange (resulting in
the oracle's answer) and strips the drained text. -/
def send_at_block (ser : Option SerialHandle) (r : Except String String) :
    Except String String :=
  match ser with
  | some h => if h.isOpen then r.map pyStripS else Except.error "Serial not open"
  | none => Except.error "Serial not open"

/-- `ModemSession._init_modem_for_sms`: run the four setup commands in
strict sequence, logging each response; on the first raise, log the error
and re-raise (returned as `some` exception).  The session state itself is
not modified — only the shared queue receives log events. -/
def init_modem_for_sms (s : ModemSession) (o : OpenOracle) :
    List GuiEvent × Option String :=
  let pfx := "[" ++ s.port ++ "] "
  match send_at_block s.ser o.atResp with
  | Except.error e => ([GuiEvent.log (pfx ++ "[ERROR] Init modem failed: " ++ e)], some e)
  | Except.ok r1 =>
    match send_at_block s.ser o.cmgfResp with
    | Except.error e =>
      ([GuiEvent.log (pfx ++ "AT -> " ++ r1),
        GuiEvent.log (pfx ++ "[ERROR] Init modem failed: " ++ e)], some e)
    | Except.ok r2 =>
      match send_at_block s.ser o.cscsResp with
      | Except.error e =>
        ([GuiEvent.log (pfx ++ "AT -> " ++ r1),
          GuiEvent.log (pfx ++ "AT+CMGF=1 -> " ++ r2),
          GuiEvent.log (pfx ++ "[ERROR] Init modem failed: " ++ e)], some e)
      | Except.ok r3 =>
        match send_at_block s.ser o.cnmiResp with
        | Except.error e =>
          ([GuiEvent.log (pfx ++ "AT -> " ++ r1),
            GuiEvent.log (pfx ++ "AT+CMGF=1 -> " ++ r2),
            GuiEvent.log (pfx ++ "AT+CSCS=\"GSM\" -> " ++ r3),
            GuiEvent.log (pfx ++ "[ERROR] Init modem failed: " ++ e)], some e)
        | Except.ok r4 =>
          ([GuiEvent.log (pfx ++ "AT -> " ++ r1),
            GuiEvent.log (pfx ++ "AT+CMGF=1 -> " ++ r2),
            GuiEvent.log (pfx ++ "AT+CSCS=\"GSM\" -> " ++ r3),
            GuiEvent.log (pfx ++ "AT+CNMI=2,2,0,0,0 -> " ++ r4)], none)

/-- Body of `ModemSession.open` past the early return: assign
`self.ser = serial.Serial(...)` (on constructor raise `self.ser` keeps its
previous value and the exception propagates), run the initialisation
sequence (on raise the exception propagates with the handle still assigned
and open), then set `running`, start the listener thread and log. -/
def openProceed (s : ModemSession) (o : OpenOracle) :
    ModemSession × List GuiEvent × Option String :=
  match o.openResult with
  | Except.error e => (s, [], some e)
  | Except.ok _ =>
    let s1 : ModemSession := { s with ser := some { isOpen := true } }
    match init_modem_for_sms s1 o with
    | (evs, some e) => (s1, evs, some e)
    | (evs, none) =>
      ({ s1 with running := true, threadStarted := true },
       evs ++ [GuiEvent.log ("[" ++ s.port ++ "] [SYSTEM] Connected")], none)

/-- `ModemSession.open` (`open` is a Lean keyword): early-return when the
channel is already open, otherwise acquire and initialise.  Returns the
session after the call, the log events pushed, and the exception raised if
any. -/
def openSession (s : ModemSession) (o : OpenOracle) :
    ModemSession × List GuiEvent × Option String :=
  match s.ser with
  | some h => if h.isOpen then (s, [], none) else openProceed s o
  | none => openProceed s o

/-- Is the session's channel present and open (`self.ser and
self.ser.is_open`)? -/
def serIsOpen (s : ModemSession) : Bool :=
  match s.ser with
  | some h => h.isOpen
  | none => false

/-- `ModemSession.send_sms`: precondition check first; on a closed channel
raise `"Modem not connected"` with no writes performed; otherwise, under
the session lock, perform the three writes (mode select, addressed send,
body terminated by ASCII 26) and log.  Returns the session, the sequence of
raw strings written to the channel, the pushed events, and the raised
exception if any. -/
def send_sms (s : ModemSession) (phone text : String) :
    ModemSession × List String × List GuiEvent × Option String :=
  if serIsOpen s then
    (s,
     ["AT+CMGF=1\x0d",
      "AT+CMGS=\"" ++ phone ++ "\"\x0d",
      text ++ (Char.ofNat 26).toString],
     [GuiEvent.log ("[" ++ s.port ++ "] [SEND_SMS] To " ++ phone ++ ": " ++ text)],
     none)
  else (s, [], [], some "Modem not connected")

/-- `SessionManager` state: the port-keyed registry plus a counter from
which model session identities are drawn (each `ModemSession(...)`
construction consumes one). -/
structure SessionManager where
  sessions : List (String × ModemSession)
  nextId : Nat
deriving DecidableEq

/-- Registry lookup (`self.sessions.get(port)`). -/
def lookupSession (m : SessionManager) (port : String) : Option ModemSession :=
  (m.sessions.find? (fun e => e.1 == port)).map (fun e => e.2)

/-- `ModemSession.__init__`: fresh session with no channel, not running,
empty inbox. -/
def newSession (sid : Nat) (port : String) : ModemSession :=
  { sid := sid, port := port, ser := none, running := false,
    threadStarted := false, sms_store := [] }

/-- `SessionManager.get_session(port, create_if_missing=True)`: return the
registered session if present; otherwise construct a fresh session,
register it, and return it. -/
def get_session_create (m : SessionManager) (port : String) :
    SessionManager × ModemSession :=
  match lookupSession m port with
  | some s => (m, s)
  | none =>
    let s := newSession m.nextId port
    ({ sessions := (port, s) :: m.sessions, nextId := m.nextId + 1 }, s)

/-- Write back the (in Python: in-place) mutation of the session object
registered under `port`. -/
def updateSession : List (String × ModemSession) → String → ModemSession →
    List (String × ModemSession)
  | [], _, _ => []
  | e :: r, p, s => if e.1 = p then (p, s) :: r else e :: updateSession r p s

/-- `SessionManager.connect`: `get_session(port, create_if_missing=True)`
— which registers a fresh session *before* any channel is acquired — then
`s.open()`; an exception from `open()` propagates to the caller.  Returns
the manager afterwards, the events pushed, and either the session or the
propagated exception. -/
def connect (m : SessionManager) (port : String) (o : OpenOracle) :
    SessionManager × List GuiEvent × Except String ModemSession :=
  let ms := get_session_create m port
  let res := openSession ms.2 o
  let m2 : SessionManager := { ms.1 with sessions := updateSession ms.1.sessions port res.1 }
  match res.2.2 with
  | some e => (m2, res.2.1, Except.error e)
  | none => (m2, res.2.1, Except.ok res.1)

/-! ## Listener loop (`ModemSession._listener_loop`) -/

/-- One result of `self.ser.readline()` as the loop body observes it:
either the decoded bytes of a (possibly empty) read, or a raised
exception. -/
inductive ReadResult
  | bytes (b : String)
  | fault (msg : String)
deriving DecidableEq

/-- An observable action of the listener loop body: a `_push_log`, a
`_push_sms` (which both publishes the event and appends the inbox record),
or the `time.sleep(0.5)` backoff of the exception handler. -/
inductive LAction
  | logEv (text : String)
  | smsEv (sender : Option String) (text : String)
  | sleep
deriving DecidableEq

/-- One iteration body of `_listener_loop`, consuming from the stream of
read results (an exhausted stream reads as an empty/timeout read): a fault
is caught, logged and followed by the backoff sleep; empty reads and
whitespace-only lines are skipped; a `+CMT:` line triggers exactly one
additional read for the body (whose own fault is caught by the same
handler) and one `_push_sms`; any other line is logged verbatim. -/
def listenerIter (port : String) (reads : List ReadResult) :
    List LAction × List ReadResult :=
  match reads with
  | [] => ([], [])
  | ReadResult.fault e :: rest =>
    ([LAction.logEv ("[" ++ port ++ "] [LISTENER ERROR] " ++ e), LAction.sleep], rest)
  | ReadResult.bytes b :: rest =>
    if b.data.isEmpty then ([], rest)
    else
      let line := pyStripS b
      if line.data.isEmpty then ([], rest)
      else if List.isPrefixOf cmtTag line.data then
        match rest with
        | [] => ([LAction.smsEv (parse_cmt_header line) ""], [])
        | ReadResult.fault e :: r2 =>
          ([LAction.logEv ("[" ++ port ++ "] [LISTENER ERROR] " ++ e), LAction.sleep], r2)
        | ReadResult.bytes b2 :: r2 =>
          ([LAction.smsEv (parse_cmt_header line) (pyStripS b2)], r2)
      else ([LAction.logEv ("[" ++ port ++ "] " ++ line)], rest)

/-- The listener loop over a finite schedule: entry `i` of the schedule is
the pair `(self.running, self.ser and self.ser.is_open)` that iteration `i`
observes when the `while` condition is evaluated (both written concurrently
by `close()`).  Returns the actions produced and, when the loop exited by
its condition within the schedule, the flag pair it observed at exit
(`none` means the schedule ran out with the loop still going). -/
def listenerRun (port : String) :
    List (Bool × Bool) → List ReadResult → List LAction × Option (Bool × Bool)
  | [], _ => ([], none)
  | (run, op) :: sched, reads =>
    if run && op then
      let step := listenerIter port reads
      let restRun := listenerRun port sched step.2
      (step.1 ++ restRun.1, restRun.2)
    else ([], some (run, op))

/-- The inbox records appended by a sequence of listener actions (each
`_push_sms` appends exactly one record for the session's port). -/
def smsRecordsOf (port : String) (acts : List LAction) : List SmsRec :=
  acts.filterMap fun a =>
    match a with
    | LAction.smsEv sender text => some { port := port, sender := sender, text := text }
    | _ => none

/-! ## One-shot probes (`scan_phone_number.py`, `scan_phone_number_ussd.py`) -/

/-- Fallible serial interactions of `probe_port_for_number`: the
`serial.Serial` constructor, the two `send_at` exchanges, and the two
unguarded `ser.close()` call sites inside the `try` block (the `close`
inside the `except` handler is itself swallowed and unobservable). -/
structure CnumOracle where
  openResult : Except String Unit
  atResp : Except String String
  cnumResp : Except String String
  closeNoOk : Except String Unit
  closeMain : Except String Unit

/-- The result record built by `probe_port_for_number`. -/
structure CnumInfo where
  port : String
  at_ok : Bool
  phone_number : Option String
  raw_cnum : Option String
  error : Option String
deriving DecidableEq

/-- `probe_port_for_number` (`scan_phone_number.py`): every exception from
a serial interaction is caught — a constructor failure becomes an
`open_error:` record, any raise inside the `try` block becomes a
`runtime_error:` record (overwriting a previously set `error` field, as the
handler mutates the same dict) — and the function always returns the record
with the probed port in its `port` field. -/
def probe_port_for_number (port : String) (o : CnumOracle) : CnumInfo :=
  let info0 : CnumInfo :=
    { port := port, at_ok := false, phone_number := none, raw_cnum := none, error := none }
  match o.openResult with
  | Except.error e => { info0 with error := some ("open_error: " ++ e) }
  | Except.ok _ =>
    match o.atResp with
    | Except.error e => { info0 with error := some ("runtime_error: " ++ e) }
    | Except.ok rawAt =>
      let resp_at := pyStripS rawAt
      if containsSub ['O', 'K'] resp_at.data then
        let info1 : CnumInfo := { info0 with at_ok := true }
        match o.cnumResp with
        | Except.error e => { info1 with error := some ("runtime_error: " ++ e) }
        | Except.ok rawCnum =>
          let resp_cnum := pyStripS rawCnum
          let info2 : CnumInfo := { info1 with raw_cnum := some resp_cnum }
          let info3 : CnumInfo :=
            match parse_cnum resp_cnum with
            | some n => { info2 with phone_number := some n }
            | none => { info2 with error := some "CNUM empty or not supported" }
          match o.closeMain with
          | Except.error e => { info3 with error := some ("runtime_error: " ++ e) }
          | Except.ok _ => info3
      else
        let infoNo : CnumInfo := { info0 with error := some ("AT no OK, resp=" ++ resp_at) }
        match o.closeNoOk with
        | Except.error e => { infoNo with error := some ("runtime_error: " ++ e) }
        | Except.ok _ => infoNo

/-- Fallible serial interactions of `probe_port_for_number_with_ussd`: the
constructor, the `AT` and `AT+CPIN?` exchanges, the `send_ussd_and_wait`
call for the `i`-th attempted USSD code (indexed because the loop may try
several), and the unguarded `ser.close()` call sites in the `try` block. -/
structure UssdOracle where
  openResult : Except String Unit
  atResp : Except String String
  cpinResp : Except String String
  ussdResp : Nat → Except String String
  closeNoOk : Except String Unit
  closeNotReady : Except String Unit
  closeMain : Except String Unit

/-- The result record built by `probe_port_for_number_with_ussd`. -/
structure UssdInfo where
  port : String
  at_ok : Bool
  sim_ready : Bool
  phone_number : Option String
  raw_ussd : Option String
  used_ussd : Option String
  error : Option String
deriving DecidableEq

/-- The `for code in ussd_codes` loop of `probe_port_for_number_with_ussd`:
an empty (stripped) USSD reply is skipped without touching the record; a
reply with an extractable MSISDN sets `phone_number`/`raw_ussd`/`used_ussd`
and breaks; a reply without one overwrites `raw_ussd` (last write wins) and
continues; a raise from `send_ussd_and_wait` aborts the loop (returned as
`some` exception for the caller's handler). -/
def ussd_try_codes (o : UssdOracle) : Nat → List String → UssdInfo →
    UssdInfo × Option String
  | _, [], info => (info, none)
  | i, code :: rest, info =>
    match o.ussdResp i with
    | Except.error e => (info, some e)
    | Except.ok raw =>
      let resp := pyStripS raw
      if resp.isEmpty then ussd_try_codes o (i + 1) rest info
      else
        match extract_msisdn_from_text resp with
        | some m =>
          ({ info with phone_number := some m, raw_ussd := some resp,
                       used_ussd := some code }, none)
        | none => ussd_try_codes o (i + 1) rest { info with raw_ussd := some resp }

/-- `probe_port_for_number_with_ussd` (`scan_phone_number_ussd.py`): open,
probe `AT`, check `READY`, try the USSD codes in order, close; every raise
is caught and recorded in the `error` field (`open_error:` for the
constructor, `runtime_error:` for anything inside the `try` block), and the
returned record always carries the probed port. -/
def probe_port_for_number_with_ussd (port : String) (codes : List String)
    (o : UssdOracle) : UssdInfo :=
  let info0 : UssdInfo :=
    { port := port, at_ok := false, sim_ready := false, phone_number := none,
      raw_ussd := none, used_ussd := none, error := none }
  match o.openResult with
  | Except.error e => { info0 with error := some ("open_error: " ++ e) }
  | Except.ok _ =>
    match o.atResp with
    | Except.error e => { info0 with error := some ("runtime_error: " ++ e) }
    | Except.ok rawAt =>
      let resp_at := pyStripS rawAt
      if containsSub ['O', 'K'] resp_at.data then
        let info1 : UssdInfo := { info0 with at_ok := true }
        match o.cpinResp with
        | Except.error e => { info1 with error := some ("runtime_error: " ++ e) }
        | Except.ok rawCpin =>
          let resp_cpin := pyStripS rawCpin
          if containsSub ['R', 'E', 'A', 'D', 'Y'] resp_cpin.data then
            let info2 : UssdInfo := { info1 with sim_ready := true }
            match ussd_try_codes o 0 codes info2 with
            | (info3, some e) => { info3 with error := some ("runtime_error: " ++ e) }
            | (info3, none) =>
              let info4 : UssdInfo :=
                if info3.phone_number = none then
                  { info3 with error := some "Cannot extract phone from USSD response" }
                else info3
              match o.closeMain with
              | Except.error e => { info4 with error := some ("runtime_error: " ++ e) }
              | Except.ok _ => info4
          else
            let infoNr : UssdInfo :=
              { info1 with error := some ("SIM not READY, CPIN=" ++ resp_cpin) }
            match o.closeNotReady with
            | Except.error e => { infoNr with error := some ("runtime_error: " ++ e) }
            | Except.ok _ => infoNr
      else
        let infoNo : UssdInfo := { info0 with error := some ("AT no OK, resp=" ++ resp_at) }
        match o.closeNoOk with
        | Except.error e => { infoNo with error := some ("runtime_error: " ++ e) }
        | Except.ok _ => infoNo

/-! ## Spec-side definitions

Definitions in this section follow the wording of the specification rather
than the source; they exist only to be compared against the source-derived
definitions above. -/

/-- Normalisation as the specification words it for
`extractCandidateMsisdn`: "normalizes the text by stripping zero-width and
non-breaking-space characters" — both characters removed. -/
def normalizeSpecStrip (l : List Char) : List Char :=
  l.filter (fun c => c != Char.ofNat 0x200B && c != Char.ofNat 0xA0)

/-- `extractCandidateMsisdn` as worded by the specification: strip both
special characters, then first MSISDN candidate in document order. -/
def extractCandidateMsisdnSpec (text : String) : Option String :=
  (findMsisdn (normalizeSpecStrip text.data)).map List.asString

/-- Prop-level statement, from the specification's words, that `w` is an
MSISDN candidate: the fixed prefix `84` followed by 8–10 digits, or a
leading `0` followed by 8–10 digits. -/
def IsMsisdnCandidate (w : List Char) : Prop :=
  (∃ ds : List Char, w = '8' :: '4' :: ds ∧ 8 ≤ ds.length ∧ ds.length ≤ 10 ∧
    ∀ c ∈ ds, Char.isDigit c) ∨
  (∃ ds : List Char, w = '0' :: ds ∧ 8 ≤ ds.length ∧ ds.length ≤ 10 ∧
    ∀ c ∈ ds, Char.isDigit c)

/-! ## Helper lemmas (shared) -/

theorem takeWhileAppendAll {p : Char → Bool} {l1 : List Char}
    (h : ∀ c ∈ l1, p c = true) (l2 : List Char) :
    (l1 ++ l2).takeWhile p = l1 ++ l2.takeWhile p := by
  induction l1 with
  | nil => simp
  | cons c r ih =>
    have hc : p c = true := h c (by simp)
    simp only [List.cons_append, List.takeWhile_cons, hc, if_true]
    rw [ih (fun d hd => h d (by simp [hd]))]

theorem dropWhileAppendAll {p : Char → Bool} {l1 : List Char}
    (h : ∀ c ∈ l1, p c = true) (l2 : List Char) :
    (l1 ++ l2).dropWhile p = l2.dropWhile p := by
  induction l1 with
  | nil => simp
  | cons c r ih =>
    have hc : p c = true := h c (by simp)
    simp only [List.cons_append, List.dropWhile_cons, hc, if_true]
    exact ih (fun d hd => h d (by simp [hd]))

theorem updateSessionOfFound (l : List (String × ModemSession)) (port : String)
    (s : ModemSession)
    (h : (l.find? (fun e => e.1 == port)).map (fun e => e.2) = some s) :
    updateSession l port s = l := by
  induction l with
  | nil => simp [List.find?] at h
  | cons e r ih =>
    obtain ⟨q, t⟩ := e
    by_cases hp : (q == port) = true
    · rw [List.find?_cons_of_pos _ (by simpa using hp)] at h
      simp at h
      have hq : q = port := by simpa using hp
      simp [updateSession, hq, ← h]
    · rw [List.find?_cons_of_neg _ (by simpa using hp)] at h
      have hq : ¬ q = port := by simpa using hp
      simp [updateSession, hq, ih h]

theorem ussdTryCodesPort (o : UssdOracle) :
    ∀ (codes : List String) (i : Nat) (info : UssdInfo),
      (ussd_try_codes o i codes info).1.port = info.port := by
  intro codes
  induction codes with
  | nil => intro i info; rfl
  | cons c rest ih =>
    intro i info
    unfold ussd_try_codes
    cases hr : o.ussdResp i with
    | error e => rfl
    | ok raw =>
      by_cases he : (pyStripS raw).isEmpty = true
      · simpa [he] using ih (i + 1) info
      · cases hm : extract_msisdn_from_text (pyStripS raw) with
        | some m => simp [he, hm]
        | none =>
          simpa [he, hm] using
            ih (i + 1) { info with raw_ussd := some (pyStripS raw) }

theorem ussdTryCodesExc (o : UssdOracle) :
    ∀ (codes : List String) (i : Nat) (info : UssdInfo) (e : String),
      (ussd_try_codes o i codes info).2 = some e →
      ∃ j : Nat, o.ussdResp j = Except.error e := by
  intro codes
  induction codes with
  | nil =>
    intro i info e h
    simp [ussd_try_codes] at h
  | cons c rest ih =>
    intro i info e h
    unfold ussd_try_codes at h
    cases hr : o.ussdResp i with
    | error e2 =>
      rw [hr] at h
      simp only [Option.some.injEq] at h
      exact ⟨i, by rw [hr, h]⟩
    | ok raw =>
      rw [hr] at h
      by_cases he : (pyStripS raw).isEmpty = true
      · simp only [he, if_true] at h
        exact ih _ _ _ h
      · simp only [he] at h
        cases hm : extract_msisdn_from_text (pyStripS raw) with
        | some m =>
          rw [hm] at h
          simp at h
        | none =>
          rw [hm] at h
          simp only at h
          exact ih _ _ _ h

theorem listenerRunExitFlags (port : String) :
    ∀ (sched : List (Bool × Bool)) (reads : List ReadResult) (acts : List LAction)
      (fl : Bool × Bool), listenerRun port sched reads = (acts, some fl) →
      fl ∈ sched ∧ (fl.1 && fl.2) = false := by
  intro sched
  induction sched with
  | nil =>
    intro reads acts fl h
    simp [listenerRun] at h
  | cons p rest ih =>
    intro reads acts fl h
    obtain ⟨run, op⟩ := p
    unfold listenerRun at h
    by_cases hc : (run && op) = true
    · rw [if_pos hc] at h
      have h2 : (listenerRun port rest (listenerIter port reads).2).2 = some fl := by
        have := congrArg Prod.snd h
        simpa using this
      have hmain := ih (listenerIter port reads).2
        (listenerRun port rest (listenerIter port reads).2).1 fl (by rw [← h2])
      exact ⟨List.mem_cons_of_mem _ hmain.1, hmain.2⟩
    · rw [if_neg hc] at h
      have hfl : fl = (run, op) := by
        have := congrArg Prod.snd h
        simpa using this.symm
      subst hfl
      exact ⟨List.mem_cons_self _ _, by simpa using hc⟩

/-! ## Claims -/

/-- C7: for every session whose channel is closed (no serial handle or
handle not open), `send_sms` raises the precondition failure
`"Modem not connected"` synchronously, performs no write to the channel,
pushes no event, and leaves the session unchanged. -/
theorem C7_send_sms_closed_precondition (s : ModemSession) (phone text : String)
    (h : serIsOpen s = false) :
    send_sms s phone text = (s, [], [], some "Modem not connected") := by
  simp [send_sms, h]

/-- C7 witness: a freshly constructed (never-opened) session. -/
theorem C7_witness :
    serIsOpen (newSession 0 "COM7") = false ∧
    send_sms (newSession 0 "COM7") "+84901234567" "hello" =
      (newSession 0 "COM7", [], [], some "Modem not connected") :=
  ⟨rfl, C7_send_sms_closed_precondition (newSession 0 "COM7") "+84901234567" "hello" rfl⟩

/-- C5: `connect` is idempotent — for a port whose registered session holds
an open channel, a second `connect` returns that very session object
(`Except.ok s` for the registered `s`), the manager state is unchanged (in
particular `nextId` is unchanged, so no new session was constructed), no
event is pushed, and the conclusion holds for an arbitrary oracle, so the
channel is not reopened (no serial interaction is even consulted). -/
theorem C5_connect_idempotent (m : SessionManager) (port : String) (o : OpenOracle)
    (s : ModemSession) (h : lookupSession m port = some s)
    (hop : serIsOpen s = true) :
    connect m port o = (m, [], Except.ok s) := by
  obtain ⟨hd, hser, hopen⟩ : ∃ hd, s.ser = some hd ∧ hd.isOpen = true := by
    cases hs : s.ser with
    | none => rw [serIsOpen, hs] at hop; exact absurd hop (by simp)
    | some hd => exact ⟨hd, rfl, by rw [serIsOpen, hs] at hop; exact hop⟩
  have hopen_eq : openSession s o = (s, [], none) := by
    rw [openSession, hser]
    simp [hopen]
  unfold connect get_session_create
  rw [h]
  simp only [hopen_eq]
  have hupd : updateSession m.sessions port s = m.sessions :=
    updateSessionOfFound m.sessions port s h
  simp [hupd]

/-- C5 witness: a manager with one registered, open session. -/
theorem C5_witness :
    lookupSession
        { sessions := [("COM7",
            { sid := 0, port := "COM7", ser := some { isOpen := true },
              running := true, threadStarted := true, sms_store := [] })],
          nextId := 1 } "COM7" =
      some { sid := 0, port := "COM7", ser := some { isOpen := true },
             running := true, threadStarted := true, sms_store := [] } ∧
    connect
        { sessions := [("COM7",
            { sid := 0, port := "COM7", ser := some { isOpen := true },
              running := true, threadStarted := true, sms_store := [] })],
          nextId := 1 } "COM7"
        { openResult := Except.error "busy", atResp := Except.error "x",
          cmgfResp := Except.error "x", cscsResp := Except.error "x",
          cnmiResp := Except.error "x" } =
      ({ sessions := [("COM7",
            { sid := 0, port := "COM7", ser := some { isOpen := true },
              running := true, threadStarted := true, sms_store := [] })],
          nextId := 1 }, [],
        Except.ok { sid := 0, port := "COM7", ser := some { isOpen := true },
                    running := true, threadStarted := true, sms_store := [] }) :=
  ⟨rfl, C5_connect_idempotent _ "COM7" _ _ rfl rfl⟩

/-- C1 counterexample: on an empty registry, `connect "COM7"` with a failing
`serial.Serial` constructor surfaces the failure (`Except.error`), yet the
registry afterwards *does* hold a session for `"COM7"` — the fresh,
never-opened session inserted by `get_session(create_if_missing=True)`
before `open()` ran.  This falsifies "the registry holds no session for
that port afterwards". -/
theorem C1_counterexample :
    (connect { sessions := [], nextId := 0 } "COM7"
        { openResult := Except.error "device busy", atResp := Except.ok "",
          cmgfResp := Except.ok "", cscsResp := Except.ok "",
          cnmiResp := Except.ok "" }).2.2 = Except.error "device busy" ∧
    lookupSession (connect { sessions := [], nextId := 0 } "COM7"
        { openResult := Except.error "device busy", atResp := Except.ok "",
          cmgfResp := Except.ok "", cscsResp := Except.ok "",
          cnmiResp := Except.ok "" }).1 "COM7" = some (newSession 0 "COM7") :=
  ⟨rfl, rfl⟩

/-- C1 amended: if acquiring the channel in `open()` fails, `connect`
surfaces the failure synchronously (the exception propagates), but the
session was already inserted into the registry by
`get_session(create_if_missing=True)` before `open()` was called, so the
registry holds a (never-opened, channel-less) session for that port
afterwards — insertion happens on every `connect` of an unregistered port,
not only on one whose `open()` succeeded. -/
theorem C1_amended_registered_despite_open_failure (m : SessionManager)
    (port : String) (o : OpenOracle) (e : String)
    (hnew : lookupSession m port = none)
    (hfail : o.openResult = Except.error e) :
    (connect m port o).2.2 = Except.error e ∧
    lookupSession (connect m port o).1 port = some (newSession m.nextId port) := by
  unfold connect get_session_create
  rw [hnew]
  simp only [openSession, newSession, openProceed, hfail]
  constructor
  · trivial
  · simp [lookupSession, updateSession, List.find?, newSession]

/-- C1 amended witness: empty registry, failing constructor. -/
theorem C1_witness :
    ((connect { sessions := [], nextId := 0 } "COM9"
        { openResult := Except.error "permission denied", atResp := Except.ok "",
          cmgfResp := Except.ok "", cscsResp := Except.ok "",
          cnmiResp := Except.ok "" }).2.2 = Except.error "permission denied") ∧
    lookupSession (connect { sessions := [], nextId := 0 } "COM9"
        { openResult := Except.error "permission denied", atResp := Except.ok "",
          cmgfResp := Except.ok "", cscsResp := Except.ok "",
          cnmiResp := Except.ok "" }).1 "COM9" = some (newSession 0 "COM9") :=
  C1_amended_registered_despite_open_failure { sessions := [], nextId := 0 } "COM9"
    _ "permission denied" rfl rfl

/-- C2 counterexample: with the constructor succeeding and the first
initialization command (`AT`) raising, `open()` propagates the exception
and the listener is never started — but the serial handle is *not* closed:
the resulting session still holds `ser = some { isOpen := true }`.  This
falsifies "the channel is released (the serial handle is closed)". -/
theorem C2_counterexample :
    (openSession (newSession 0 "COM7")
        { openResult := Except.ok (), atResp := Except.error "boom",
          cmgfResp := Except.ok "", cscsResp := Except.ok "",
          cnmiResp := Except.ok "" }).2.2 = some "boom" ∧
    (openSession (newSession 0 "COM7")
        { openResult := Except.ok (), atResp := Except.error "boom",
          cmgfResp := Except.ok "", cscsResp := Except.ok "",
          cnmiResp := Except.ok "" }).1.ser = some { isOpen := true } ∧
    (openSession (newSession 0 "COM7")
        { openResult := Except.ok (), atResp := Except.error "boom",
          cmgfResp := Except.ok "", cscsResp := Except.ok "",
          cnmiResp := Except.ok "" }).1.threadStarted = false :=
  ⟨rfl, rfl, rfl⟩

/-- C2 amended: if any of the four initialization commands run by `open()`
raises, `open()` propagates the exception, the listener is never started
and the `running` flag is untouched — but the channel is *not* released:
the session is left holding an open serial handle (half-open: channel
acquired, listener absent). -/
theorem C2_amended_init_failure_leaves_channel_open (s : ModemSession)
    (o : OpenOracle) (e : String) (hser : s.ser = none)
    (hok : o.openResult = Except.ok ())
    (hinit : (init_modem_for_sms { s with ser := some { isOpen := true } } o).2 =
      some e) :
    (openSession s o).2.2 = some e ∧
    (openSession s o).1.ser = some { isOpen := true } ∧
    (openSession s o).1.running = s.running ∧
    (openSession s o).1.threadStarted = s.threadStarted := by
  have h1 : openSession s o = openProceed s o := by rw [openSession, hser]
  rw [h1]
  unfold openProceed
  rw [hok]
  rcases hi : init_modem_for_sms { s with ser := some { isOpen := true } } o with ⟨evs, err⟩
  rw [hi] at hinit
  simp only at hinit
  subst hinit
  simp [hi]

/-- C2 amended witness: fresh session, constructor succeeds, `AT` raises. -/
theorem C2_witness :
    ((openSession (newSession 1 "COM8")
        { openResult := Except.ok (), atResp := Except.error "read failed",
          cmgfResp := Except.ok "OK", cscsResp := Except.ok "OK",
          cnmiResp := Except.ok "OK" }).2.2 = some "read failed") ∧
    (openSession (newSession 1 "COM8")
        { openResult := Except.ok (), atResp := Except.error "read failed",
          cmgfResp := Except.ok "OK", cscsResp := Except.ok "OK",
          cnmiResp := Except.ok "OK" }).1.ser = some { isOpen := true } ∧
    (openSession (newSession 1 "COM8")
        { openResult := Except.ok (), atResp := Except.error "read failed",
          cmgfResp := Except.ok "OK", cscsResp := Except.ok "OK",
          cnmiResp := Except.ok "OK" }).1.running = (newSession 1 "COM8").running ∧
    (openSession (newSession 1 "COM8")
        { openResult := Except.ok (), atResp := Except.error "read failed",
          cmgfResp := Except.ok "OK", cscsResp := Except.ok "OK",
          cnmiResp := Except.ok "OK" }).1.threadStarted =
      (newSession 1 "COM8").threadStarted :=
  C2_amended_init_failure_leaves_channel_open (newSession 1 "COM8") _ "read failed"
    rfl rfl rfl

theorem msisdnAtSound {l m : List Char} (h : msisdnAt l = some m) :
    IsMsisdnCandidate m ∧ m <+: l := by
  unfold msisdnAt at h
  split at h
  · rename_i rest
    split at h
    · rename_i hlen
      obtain rfl : '8' :: '4' :: (rest.takeWhile Char.isDigit).take 10 = m := by
        simpa using h
      constructor
      · refine Or.inl ⟨(rest.takeWhile Char.isDigit).take 10, rfl, ?_, ?_, ?_⟩
        · simp only [List.length_take]; omega
        · simp only [List.length_take]; omega
        · intro c hc
          exact List.mem_takeWhile_imp (List.take_subset _ _ hc)
      · exact List.cons_prefix_cons.2 ⟨rfl, List.cons_prefix_cons.2 ⟨rfl,
          (List.take_prefix 10 (rest.takeWhile Char.isDigit)).trans
            (List.takeWhile_prefix (p := Char.isDigit) (l := rest))⟩⟩
    · exact absurd h (by simp)
  · rename_i rest
    split at h
    · rename_i hlen
      obtain rfl : '0' :: (rest.takeWhile Char.isDigit).take 10 = m := by
        simpa using h
      constructor
      · refine Or.inr ⟨(rest.takeWhile Char.isDigit).take 10, rfl, ?_, ?_, ?_⟩
        · simp only [List.length_take]; omega
        · simp only [List.length_take]; omega
        · intro c hc
          exact List.mem_takeWhile_imp (List.take_subset _ _ hc)
      · exact List.cons_prefix_cons.2 ⟨rfl,
          (List.take_prefix 10 (rest.takeWhile Char.isDigit)).trans
            (List.takeWhile_prefix (p := Char.isDigit) (l := rest))⟩
    · exact absurd h (by simp)
  · exact absurd h (by simp)

theorem msisdnAtComplete {w l : List Char} (hw : IsMsisdnCandidate w)
    (hp : w <+: l) : msisdnAt l ≠ none := by
  rcases hw with ⟨ds, rfl, hlen8, _, hds⟩ | ⟨ds, rfl, hlen8, _, hds⟩
  · obtain ⟨t, ht⟩ := hp
    subst ht
    have h8 : 8 ≤ ((ds ++ t).takeWhile Char.isDigit).length := by
      rw [takeWhileAppendAll (fun c hc => hds c hc) t]
      simp only [List.length_append]
      omega
    simp only [List.cons_append, msisdnAt]
    rw [if_pos h8]
    simp
  · obtain ⟨t, ht⟩ := hp
    subst ht
    have h8 : 8 ≤ ((ds ++ t).takeWhile Char.isDigit).length := by
      rw [takeWhileAppendAll (fun c hc => hds c hc) t]
      simp only [List.length_append]
      omega
    simp only [List.cons_append, msisdnAt]
    rw [if_pos h8]
    simp

theorem findMsisdnNone : ∀ (l : List Char), findMsisdn l = none →
    ∀ i : Nat, msisdnAt (l.drop i) = none := by
  intro l
  induction l with
  | nil => intro _ i; rw [List.drop_nil]; rfl
  | cons c rest ih =>
    intro h i
    rw [findMsisdn] at h
    cases hm : msisdnAt (c :: rest) with
    | some m => rw [hm] at h; simp at h
    | none =>
      rw [hm] at h
      cases i with
      | zero => simpa using hm
      | succ k => simpa using ih h k

theorem findMsisdnSome : ∀ (l m : List Char), findMsisdn l = some m →
    ∃ i : Nat, msisdnAt (l.drop i) = some m ∧
      ∀ j : Nat, j < i → msisdnAt (l.drop j) = none := by
  intro l
  induction l with
  | nil => intro m h; simp [findMsisdn] at h
  | cons c rest ih =>
    intro m h
    rw [findMsisdn] at h
    cases hm : msisdnAt (c :: rest) with
    | some m' =>
      rw [hm] at h
      obtain rfl : m' = m := by simpa using h
      exact ⟨0, by simpa using hm, by intro j hj; omega⟩
    | none =>
      rw [hm] at h
      obtain ⟨i, hi, hmin⟩ := ih m h
      refine ⟨i + 1, by simpa using hi, ?_⟩
      intro j hj
      cases j with
      | zero => simpa using hm
      | succ k => simpa using hmin k (by omega)

/-- C3: the claim is right as documentation of intent — the code's own
docstring gives the very example `+CNUM: "","+84901234567",129,7,4 →
84901234567` — but the code is wrong: the lazy pattern
`\+CNUM:.*?"([^"]+)"` cannot match the empty first quoted field, backtracks
one character past its opening quote, and captures the comma *between* the
two fields, so `parse_cnum` returns `","`, not the subscriber number.  This
theorem evaluates the embedded code at the failing input. -/
theorem C3_parse_cnum_returns_comma_not_number :
    parse_cnum "+CNUM: \"\",\"+84901234567\",129,7,4" = some "," ∧
    parse_cnum "+CNUM: \"\",\"+84901234567\",129,7,4" ≠ some "+84901234567" := by
  exact ⟨by decide, by decide⟩

/-- C4 counterexample: the claim says the text is normalised "by stripping
zero-width and non-breaking-space characters"; the code instead *replaces*
a non-breaking space by an ordinary space.  On `"84\xA012345678"` the
claim's normalisation ("8412345678") contains the matching substring
`8412345678`, yet the code returns `none` because the substituted space
still separates the digit runs. -/
theorem C4_counterexample :
    extract_msisdn_from_text "84\xA012345678" = none ∧
    extractCandidateMsisdnSpec "84\xA012345678" = some "8412345678" := by
  exact ⟨by decide, by decide⟩

/-- C4 amended: `extract_msisdn_from_text` first normalises the text by
*removing* zero-width characters and *replacing* non-breaking spaces with a
plain space (`normalizeUssdText`), then returns the first substring of the
normalised text, in document order, matching `84` followed by 8–10 digits
or a leading `0` followed by 8–10 digits, or `none` when no position of the
normalised text starts such a substring; in particular
`"Goi dang ky 84901234567 thanh cong"` yields `"84901234567"`. -/
theorem C4_amended_first_candidate_in_document_order (text : String) :
    extract_msisdn_from_text "Goi dang ky 84901234567 thanh cong" =
      some "84901234567" ∧
    (∀ m : String, extract_msisdn_from_text text = some m →
      IsMsisdnCandidate m.data ∧
      ∃ i : Nat, m.data <+: (normalizeUssdText text.data).drop i ∧
        ∀ j : Nat, j < i → ∀ w : List Char, IsMsisdnCandidate w →
          ¬ w <+: (normalizeUssdText text.data).drop j) ∧
    (extract_msisdn_from_text text = none →
      ∀ i : Nat, ∀ w : List Char, IsMsisdnCandidate w →
        ¬ w <+: (normalizeUssdText text.data).drop i) := by
  refine ⟨by decide, ?_, ?_⟩
  · intro m hm
    obtain ⟨m', hfind, rfl⟩ : ∃ m', findMsisdn (normalizeUssdText text.data) = some m' ∧
        List.asString m' = m := by
      unfold extract_msisdn_from_text at hm
      cases hf : findMsisdn (normalizeUssdText text.data) with
      | none => rw [hf] at hm; simp at hm
      | some m' => rw [hf] at hm; exact ⟨m', rfl, by simpa using hm⟩
    obtain ⟨i, hi, hmin⟩ := findMsisdnSome _ _ hfind
    have hsound := msisdnAtSound hi
    have hdata : (List.asString m').data = m' := rfl
    rw [hdata]
    refine ⟨hsound.1, i, hsound.2, ?_⟩
    intro j hj w hw hp
    exact msisdnAtComplete hw hp (hmin j hj)
  · intro hm i w hw hp
    have hfind : findMsisdn (normalizeUssdText text.data) = none := by
      unfold extract_msisdn_from_text at hm
      cases hf : findMsisdn (normalizeUssdText text.data) with
      | none => rfl
      | some m' => rw [hf] at hm; simp at hm
    exact msisdnAtComplete hw hp (findMsisdnNone _ hfind i)

/-- C4 amended witness: the specification's own scenario text. -/
theorem C4_witness :
    IsMsisdnCandidate ("84901234567".data) ∧
    ∃ i : Nat, "84901234567".data <+:
        (normalizeUssdText ("Goi dang ky 84901234567 thanh cong".data)).drop i ∧
      ∀ j : Nat, j < i → ∀ w : List Char, IsMsisdnCandidate w →
        ¬ w <+: (normalizeUssdText ("Goi dang ky 84901234567 thanh cong".data)).drop j :=
  (C4_amended_first_candidate_in_document_order "Goi dang ky 84901234567 thanh cong").2.1
    "84901234567" (by decide)

/-- C6: when the listener loop's condition holds and the next read is a
line whose stripped text begins with the `+CMT:` tag, the iteration parses
the sender from that header with `parse_cmt_header`, performs exactly one
additional line-read to obtain the body, publishes exactly one `smsEv`
action carrying that sender and the stripped body, and that action appends
exactly one record with that sender and body to the inbox; the rest of the
run continues on the remaining schedule and reads. -/
theorem C6_cmt_notification_one_sms (port : String) (sched : List (Bool × Bool))
    (hdr body : String) (reads : List ReadResult)
    (hne : hdr.data.isEmpty = false)
    (hsne : (pyStripS hdr).data.isEmpty = false)
    (hcmt : List.isPrefixOf cmtTag (pyStripS hdr).data = true) :
    listenerRun port ((true, true) :: sched)
        (ReadResult.bytes hdr :: ReadResult.bytes body :: reads) =
      (LAction.smsEv (parse_cmt_header (pyStripS hdr)) (pyStripS body) ::
        (listenerRun port sched reads).1,
       (listenerRun port sched reads).2) ∧
    smsRecordsOf port (listenerRun port ((true, true) :: sched)
        (ReadResult.bytes hdr :: ReadResult.bytes body :: reads)).1 =
      { port := port, sender := parse_cmt_header (pyStripS hdr),
        text := pyStripS body } ::
        smsRecordsOf port (listenerRun port sched reads).1 := by
  have hiter : listenerIter port
      (ReadResult.bytes hdr :: ReadResult.bytes body :: reads) =
      ([LAction.smsEv (parse_cmt_header (pyStripS hdr)) (pyStripS body)], reads) := by
    simp [listenerIter, hne, hsne, hcmt]
  constructor
  · simp [listenerRun, hiter]
  · simp [listenerRun, hiter, smsRecordsOf]

/-- C6 witness: the specification's scenario — header
`+CMT: "+84901234567",...` then body `Hello` produce exactly one SMS event
`{sender := some "+84901234567", text := "Hello"}` and exactly one inbox
record. -/
theorem C6_witness :
    listenerRun "COM7" [(true, true)]
        [ReadResult.bytes "+CMT: \"+84901234567\",...", ReadResult.bytes "Hello"] =
      ([LAction.smsEv (some "+84901234567") "Hello"], none) ∧
    smsRecordsOf "COM7" (listenerRun "COM7" [(true, true)]
        [ReadResult.bytes "+CMT: \"+84901234567\",...", ReadResult.bytes "Hello"]).1 =
      [{ port := "COM7", sender := some "+84901234567", text := "Hello" }] := by
  have h := C6_cmt_notification_one_sms "COM7" [] "+CMT: \"+84901234567\",..." "Hello" []
    (by decide) (by decide) (by decide)
  constructor
  · rw [h.1]; decide
  · rw [h.2]; decide

/-- C8: the listener loop never terminates because of a transient read or
decode fault — a fault is caught, logged, and followed by the backoff sleep
with the run continuing (third conjunct) — and the loop can only exit via
its per-iteration condition check: whenever the run exits, the observed
flag pair fails the condition (first conjunct), and under the program's own
close discipline (`close()` clears `running` before closing the serial
handle, so the channel is never observed closed while `running` is still
true) the exit can only be because `running` was false (second conjunct). -/
theorem C8_listener_loop_exit_only_on_flag (port : String) :
    (∀ (sched : List (Bool × Bool)) (reads : List ReadResult)
        (acts : List LAction) (fl : Bool × Bool),
      listenerRun port sched reads = (acts, some fl) → (fl.1 && fl.2) = false) ∧
    (∀ (sched : List (Bool × Bool)) (reads : List ReadResult)
        (acts : List LAction) (fl : Bool × Bool),
      (∀ p ∈ sched, p.2 = false → p.1 = false) →
      listenerRun port sched reads = (acts, some fl) → fl.1 = false) ∧
    (∀ (e : String) (sched : List (Bool × Bool)) (reads : List ReadResult),
      listenerRun port ((true, true) :: sched) (ReadResult.fault e :: reads) =
        (LAction.logEv ("[" ++ port ++ "] [LISTENER ERROR] " ++ e) :: LAction.sleep ::
          (listenerRun port sched reads).1,
         (listenerRun port sched reads).2)) := by
  refine ⟨?_, ?_, ?_⟩
  · intro sched reads acts fl h
    exact (listenerRunExitFlags port sched reads acts fl h).2
  · intro sched reads acts fl hdisc h
    obtain ⟨hmem, hand⟩ := listenerRunExitFlags port sched reads acts fl h
    cases h2 : fl.2 with
    | false => exact hdisc fl hmem h2
    | true => rw [h2] at hand; simpa using hand
  · intro e sched reads
    simp [listenerRun, listenerIter]

/-- C8 witness: a concrete run — a fault is logged and followed by a sleep
with the loop continuing, and a run that exits does so observing
`running = false`. -/
theorem C8_witness :
    ((false, false) : Bool × Bool).1 = false ∧
    listenerRun "COM7" [(true, true)] [ReadResult.fault "io"] =
      (LAction.logEv ("[" ++ "COM7" ++ "] [LISTENER ERROR] " ++ "io") :: LAction.sleep ::
        (listenerRun "COM7" [] []).1, (listenerRun "COM7" [] []).2) :=
  ⟨(C8_listener_loop_exit_only_on_flag "COM7").2.1 [(true, true), (false, false)] []
      [] (false, false) (by decide) (by decide),
   (C8_listener_loop_exit_only_on_flag "COM7").2.2 "io" [] []⟩

theorem cmtQuotedWellFormed (ws sender rest : List Char)
    (hws : ∀ c ∈ ws, isPySpace c = true) (hs1 : sender ≠ [])
    (hs2 : ∀ c ∈ sender, c ≠ '"') :
    cmtQuotedAfterTag (ws ++ ('"' :: (sender ++ ('"' :: rest)))) = some sender := by
  have hqs : isPySpace '"' = false := by decide
  have hdw : (ws ++ ('"' :: (sender ++ ('"' :: rest)))).dropWhile isPySpace =
      '"' :: (sender ++ ('"' :: rest)) := by
    rw [dropWhileAppendAll hws]
    simp [List.dropWhile_cons, hqs]
  have hsq : ∀ c ∈ sender, (c != '"') = true := fun c hc => by
    simpa using hs2 c hc
  have htw : (sender ++ ('"' :: rest)).takeWhile (fun c => c != '"') = sender := by
    rw [takeWhileAppendAll hsq]
    simp [List.takeWhile_cons]
  have hdw2 : (sender ++ ('"' :: rest)).dropWhile (fun c => c != '"') =
      '"' :: rest := by
    rw [dropWhileAppendAll hsq]
    simp [List.dropWhile_cons]
  unfold cmtQuotedAfterTag
  rw [hdw]
  simp [htw, hdw2, hs1]

theorem parseCmtWellFormedL (ws sender rest : List Char)
    (hws : ∀ c ∈ ws, isPySpace c = true) (hs1 : sender ≠ [])
    (hs2 : ∀ c ∈ sender, c ≠ '"') :
    parse_cmt_headerL ('+' :: 'C' :: 'M' :: 'T' :: ':' ::
      (ws ++ ('"' :: (sender ++ ('"' :: rest))))) = some sender := by
  have hpre : List.isPrefixOf cmtTag ('+' :: 'C' :: 'M' :: 'T' :: ':' ::
      (ws ++ ('"' :: (sender ++ ('"' :: rest))))) = true := by
    simp [cmtTag, List.isPrefixOf]
  have hq := cmtQuotedWellFormed ws sender rest hws hs1 hs2
  rw [parse_cmt_headerL, if_pos hpre]
  have hdrop : List.drop 5 ('+' :: 'C' :: 'M' :: 'T' :: ':' ::
      (ws ++ ('"' :: (sender ++ ('"' :: rest))))) =
      ws ++ ('"' :: (sender ++ ('"' :: rest))) := rfl
  rw [hdrop, hq]

theorem parseCmtNoTag : ∀ (l : List Char), containsSub cmtTag l = false →
    parse_cmt_headerL l = none := by
  intro l
  induction l with
  | nil => intro _; rfl
  | cons c rest ih =>
    intro h
    rw [containsSub] at h
    simp only [Bool.or_eq_false_iff] at h
    rw [parse_cmt_headerL]
    simp [h.1, ih h.2]

theorem cmtQuotedNoQuote (l : List Char) (h : ∀ c ∈ l, c ≠ '"') :
    cmtQuotedAfterTag l = none := by
  unfold cmtQuotedAfterTag
  cases hd : l.dropWhile isPySpace with
  | nil => rfl
  | cons c r =>
    have hc : c ∈ l := by
      have hsfx : l.dropWhile isPySpace <:+ l := List.dropWhile_suffix isPySpace
      exact hsfx.subset (hd ▸ List.mem_cons_self c r)
    have hcq : c ≠ '"' := h c hc
    split
    · rename_i rest1 heq
      injection heq with h1 _
      exact absurd h1 hcq
    · rfl

theorem parseCmtNoQuote : ∀ (l : List Char), (∀ c ∈ l, c ≠ '"') →
    parse_cmt_headerL l = none := by
  intro l
  induction l with
  | nil => intro _; rfl
  | cons c rest ih =>
    intro h
    have htail : ∀ d ∈ rest, d ≠ '"' := fun d hd => h d (List.mem_cons_of_mem _ hd)
    rw [parse_cmt_headerL]
    by_cases hp : List.isPrefixOf cmtTag (c :: rest) = true
    · rw [if_pos hp,
        cmtQuotedNoQuote _ (fun d hd => h d (List.drop_subset _ _ hd))]
      exact ih htail
    · rw [if_neg hp]
      exact ih htail

/-- C9: `parse_cmt_header` is total by construction (a Lean function on
arbitrary strings) and: on a well-formed header — the `+CMT:` tag, then
whitespace, then a nonempty quoted sender containing no quote character,
then anything — it returns exactly that sender; on a line not containing
the tag at all it returns `none`; and on a line with malformed quoting (no
quote character anywhere, in particular none after the tag) it returns
`none`. -/
theorem C9_parse_cmt_header_characterisation (ws sender rest line noq : String)
    (hws : ∀ c ∈ ws.data, isPySpace c = true)
    (hs1 : sender ≠ "")
    (hs2 : ∀ c ∈ sender.data, c ≠ '"')
    (htag : containsSub cmtTag line.data = false)
    (hnq : ∀ c ∈ noq.data, c ≠ '"') :
    parse_cmt_header ("+CMT:" ++ ws ++ "\"" ++ sender ++ "\"" ++ rest) = some sender ∧
    parse_cmt_header line = none ∧
    parse_cmt_header noq = none := by
  refine ⟨?_, ?_, ?_⟩
  · have h1 : ("+CMT:" : String).data = ['+', 'C', 'M', 'T', ':'] := rfl
    have h2 : ("\"" : String).data = ['"'] := rfl
    have hdata : ("+CMT:" ++ ws ++ "\"" ++ sender ++ "\"" ++ rest).data =
        '+' :: 'C' :: 'M' :: 'T' :: ':' ::
          (ws.data ++ ('"' :: (sender.data ++ ('"' :: rest.data)))) := by
      simp [String.data_append, h1, h2]
    have hs1' : sender.data ≠ [] := by
      intro hnil
      apply hs1
      cases sender
      simp_all
    rw [parse_cmt_header, hdata,
      parseCmtWellFormedL ws.data sender.data rest.data hws hs1' hs2]
    rfl
  · rw [parse_cmt_header, parseCmtNoTag line.data htag]; rfl
  · rw [parse_cmt_header, parseCmtNoQuote noq.data hnq]; rfl

/-- C9 witness: a realistic well-formed header, a tagless line, and a
tagged line with no quotes. -/
theorem C9_witness :
    parse_cmt_header ("+CMT:" ++ " " ++ "\"" ++ "+84901234567" ++ "\"" ++ ",...") =
      some "+84901234567" ∧
    parse_cmt_header "RING" = none ∧
    parse_cmt_header "+CMT: no quotes here" = none :=
  C9_parse_cmt_header_characterisation " " "+84901234567" ",..." "RING"
    "+CMT: no quotes here" (by decide) (by decide) (by decide) (by decide) (by decide)

/-- C10: the one-shot probes return normally for every behaviour of the
serial channel and never propagate an exception — the embedding returns a
plain record even though every serial interaction it performs is
`Except`-valued, because each `except` handler of the source is translated
— the returned record always carries the probed port identifier in its
`port` field, a channel-open failure is captured in the `error` field as an
`open_error:` entry, and any runtime fault during probing — a raise from
the `AT`, `AT+CPIN?` or `AT+CNUM` exchanges, from a `send_ussd_and_wait`
call of the USSD loop (whose exception, last conjunct, always originates
from such a raise), or from an in-`try` `ser.close()` — is captured in the
`error` field as a `runtime_error:` entry. -/
theorem C10_probes_capture_faults (port : String) (o1 : CnumOracle)
    (codes : List String) (o2 : UssdOracle) :
    (probe_port_for_number port o1).port = port ∧
    (probe_port_for_number_with_ussd port codes o2).port = port ∧
    (∀ e, o1.openResult = Except.error e →
      (probe_port_for_number port o1).error = some ("open_error: " ++ e)) ∧
    (∀ e, o2.openResult = Except.error e →
      (probe_port_for_number_with_ussd port codes o2).error =
        some ("open_error: " ++ e)) ∧
    (∀ e, o1.openResult = Except.ok () → o1.atResp = Except.error e →
      (probe_port_for_number port o1).error = some ("runtime_error: " ++ e)) ∧
    (∀ e rawAt, o1.openResult = Except.ok () → o1.atResp = Except.ok rawAt →
      containsSub ['O', 'K'] (pyStripS rawAt).data = true →
      o1.cnumResp = Except.error e →
      (probe_port_for_number port o1).error = some ("runtime_error: " ++ e)) ∧
    (∀ e rawAt rawCnum, o1.openResult = Except.ok () →
      o1.atResp = Except.ok rawAt →
      containsSub ['O', 'K'] (pyStripS rawAt).data = true →
      o1.cnumResp = Except.ok rawCnum → o1.closeMain = Except.error e →
      (probe_port_for_number port o1).error = some ("runtime_error: " ++ e)) ∧
    (∀ e rawAt, o1.openResult = Except.ok () → o1.atResp = Except.ok rawAt →
      containsSub ['O', 'K'] (pyStripS rawAt).data = false →
      o1.closeNoOk = Except.error e →
      (probe_port_for_number port o1).error = some ("runtime_error: " ++ e)) ∧
    (∀ e, o2.openResult = Except.ok () → o2.atResp = Except.error e →
      (probe_port_for_number_with_ussd port codes o2).error =
        some ("runtime_error: " ++ e)) ∧
    (∀ e rawAt, o2.openResult = Except.ok () → o2.atResp = Except.ok rawAt →
      containsSub ['O', 'K'] (pyStripS rawAt).data = true →
      o2.cpinResp = Except.error e →
      (probe_port_for_number_with_ussd port codes o2).error =
        some ("runtime_error: " ++ e)) ∧
    (∀ e rawAt rawCpin, o2.openResult = Except.ok () →
      o2.atResp = Except.ok rawAt →
      containsSub ['O', 'K'] (pyStripS rawAt).data = true →
      o2.cpinResp = Except.ok rawCpin →
      containsSub ['R', 'E', 'A', 'D', 'Y'] (pyStripS rawCpin).data = true →
      (ussd_try_codes o2 0 codes
        { port := port, at_ok := true, sim_ready := true, phone_number := none,
          raw_ussd := none, used_ussd := none, error := none }).2 = some e →
      (probe_port_for_number_with_ussd port codes o2).error =
        some ("runtime_error: " ++ e)) ∧
    (∀ e rawAt rawCpin info3, o2.openResult = Except.ok () →
      o2.atResp = Except.ok rawAt →
      containsSub ['O', 'K'] (pyStripS rawAt).data = true →
      o2.cpinResp = Except.ok rawCpin →
      containsSub ['R', 'E', 'A', 'D', 'Y'] (pyStripS rawCpin).data = true →
      ussd_try_codes o2 0 codes
        { port := port, at_ok := true, sim_ready := true, phone_number := none,
          raw_ussd := none, used_ussd := none, error := none } = (info3, none) →
      o2.closeMain = Except.error e →
      (probe_port_for_number_with_ussd port codes o2).error =
        some ("runtime_error: " ++ e)) ∧
    (∀ e rawAt rawCpin, o2.openResult = Except.ok () →
      o2.atResp = Except.ok rawAt →
      containsSub ['O', 'K'] (pyStripS rawAt).data = true →
      o2.cpinResp = Except.ok rawCpin →
      containsSub ['R', 'E', 'A', 'D', 'Y'] (pyStripS rawCpin).data = false →
      o2.closeNotReady = Except.error e →
      (probe_port_for_number_with_ussd port codes o2).error =
        some ("runtime_error: " ++ e)) ∧
    (∀ e rawAt, o2.openResult = Except.ok () → o2.atResp = Except.ok rawAt →
      containsSub ['O', 'K'] (pyStripS rawAt).data = false →
      o2.closeNoOk = Except.error e →
      (probe_port_for_number_with_ussd port codes o2).error =
        some ("runtime_error: " ++ e)) ∧
    (∀ (i : Nat) (info : UssdInfo) (e : String),
      (ussd_try_codes o2 i codes info).2 = some e →
      ∃ j : Nat, o2.ussdResp j = Except.error e) := by
  refine ⟨?_, ?_, ?_, ?_, ?_, ?_, ?_, ?_, ?_, ?_, ?_, ?_, ?_, ?_, ?_⟩
  · unfold probe_port_for_number
    cases o1.openResult with
    | error e => rfl
    | ok u =>
      dsimp only
      cases o1.atResp with
      | error e => rfl
      | ok rawAt =>
        dsimp only
        by_cases hOK : containsSub ['O', 'K'] (pyStripS rawAt).data = true
        · simp only [hOK, if_true]
          cases o1.cnumResp with
          | error e => rfl
          | ok rawCnum =>
            dsimp only
            cases parse_cnum (pyStripS rawCnum) with
            | some n =>
              dsimp only
              cases o1.closeMain with
              | error e => rfl
              | ok u2 => rfl
            | none =>
              dsimp only
              cases o1.closeMain with
              | error e => rfl
              | ok u2 => rfl
        · simp only [Bool.not_eq_true] at hOK
          simp only [hOK, Bool.false_eq_true, if_false]
          cases o1.closeNoOk with
          | error e => rfl
          | ok u2 => rfl
  · unfold probe_port_for_number_with_ussd
    cases o2.openResult with
    | error e => rfl
    | ok u =>
      dsimp only
      cases o2.atResp with
      | error e => rfl
      | ok rawAt =>
        dsimp only
        by_cases hOK : containsSub ['O', 'K'] (pyStripS rawAt).data = true
        · simp only [hOK, if_true]
          cases o2.cpinResp with
          | error e => rfl
          | ok rawCpin =>
            dsimp only
            by_cases hRdy :
                containsSub ['R', 'E', 'A', 'D', 'Y'] (pyStripS rawCpin).data = true
            · simp only [hRdy, if_true]
              rcases hloop : ussd_try_codes o2 0 codes
                  { port := port, at_ok := true, sim_ready := true,
                    phone_number := none, raw_ussd := none, used_ussd := none,
                    error := none } with ⟨info3, exc⟩
              have hport : info3.port = port := by
                have := ussdTryCodesPort o2 codes 0
                  { port := port, at_ok := true, sim_ready := true,
                    phone_number := none, raw_ussd := none, used_ussd := none,
                    error := none }
                rw [hloop] at this
                exact this
              cases exc with
              | some e => simpa using hport
              | none =>
                dsimp only
                by_cases hph : info3.phone_number = none
                · rw [if_pos hph]
                  cases o2.closeMain with
                  | error e => simpa using hport
                  | ok u2 => simpa using hport
                · rw [if_neg hph]
                  cases o2.closeMain with
                  | error e => simpa using hport
                  | ok u2 => simpa using hport
            · simp only [Bool.not_eq_true] at hRdy
              simp only [hRdy, Bool.false_eq_true, if_false]
              cases o2.closeNotReady with
              | error e => rfl
              | ok u2 => rfl
        · simp only [Bool.not_eq_true] at hOK
          simp only [hOK, Bool.false_eq_true, if_false]
          cases o2.closeNoOk with
          | error e => rfl
          | ok u2 => rfl
  · intro e he
    unfold probe_port_for_number
    rw [he]
  · intro e he
    unfold probe_port_for_number_with_ussd
    rw [he]
  · intro e hop hat
    unfold probe_port_for_number
    simp [hop, hat]
  · intro e rawAt hop hat hOK hcnum
    unfold probe_port_for_number
    simp [hop, hat, hOK, hcnum]
  · intro e rawAt rawCnum hop hat hOK hcnum hclose
    unfold probe_port_for_number
    simp only [hop, hat, hOK, if_true, hcnum]
    cases parse_cnum (pyStripS rawCnum) with
    | some n => simp [hclose]
    | none => simp [hclose]
  · intro e rawAt hop hat hOK hclose
    unfold probe_port_for_number
    simp [hop, hat, hOK, hclose]
  · intro e hop hat
    unfold probe_port_for_number_with_ussd
    simp [hop, hat]
  · intro e rawAt hop hat hOK hcpin
    unfold probe_port_for_number_with_ussd
    simp [hop, hat, hOK, hcpin]
  · intro e rawAt rawCpin hop hat hOK hcpin hRdy hloop
    unfold probe_port_for_number_with_ussd
    simp only [hop, hat, hOK, if_true, hcpin, hRdy]
    rcases hl : ussd_try_codes o2 0 codes
        { port := port, at_ok := true, sim_ready := true, phone_number := none,
          raw_ussd := none, used_ussd := none, error := none } with ⟨info3, exc⟩
    rw [hl] at hloop
    simp only at hloop
    subst hloop
    simp
  · intro e rawAt rawCpin info3 hop hat hOK hcpin hRdy hloop hclose
    unfold probe_port_for_number_with_ussd
    simp only [hop, hat, hOK, if_true, hcpin, hRdy, hloop, hclose]
  · intro e rawAt rawCpin hop hat hOK hcpin hRdy hclose
    unfold probe_port_for_number_with_ussd
    simp [hop, hat, hOK, hcpin, hRdy, hclose]
  · intro e rawAt hop hat hOK hclose
    unfold probe_port_for_number_with_ussd
    simp [hop, hat, hOK, hclose]
  · intro i info e h
    exact ussdTryCodesExc o2 codes i info e h

/-- C10 witness: concrete oracles — a failing constructor for each probe
(captured as `open_error:`) and a raising `AT` exchange for each probe
(captured as `runtime_error:`), the record carrying the probed port
throughout. -/
theorem C10_witness :
    (probe_port_for_number "COM3"
        { openResult := Except.error "busy", atResp := Except.ok "OK",
          cnumResp := Except.ok "", closeNoOk := Except.ok (),
          closeMain := Except.ok () }).port = "COM3" ∧
    (probe_port_for_number_with_ussd "COM3" ["*0#"]
        { openResult := Except.error "busy", atResp := Except.ok "OK",
          cpinResp := Except.ok "READY", ussdResp := fun _ => Except.ok "",
          closeNoOk := Except.ok (), closeNotReady := Except.ok (),
          closeMain := Except.ok () }).port = "COM3" ∧
    (probe_port_for_number "COM3"
        { openResult := Except.error "busy", atResp := Except.ok "OK",
          cnumResp := Except.ok "", closeNoOk := Except.ok (),
          closeMain := Except.ok () }).error = some ("open_error: " ++ "busy") ∧
    (probe_port_for_number_with_ussd "COM3" ["*0#"]
        { openResult := Except.error "busy", atResp := Except.ok "OK",
          cpinResp := Except.ok "READY", ussdResp := fun _ => Except.ok "",
          closeNoOk := Except.ok (), closeNotReady := Except.ok (),
          closeMain := Except.ok () }).error = some ("open_error: " ++ "busy") ∧
    (probe_port_for_number "COM3"
        { openResult := Except.ok (), atResp := Except.error "io fail",
          cnumResp := Except.ok "", closeNoOk := Except.ok (),
          closeMain := Except.ok () }).error =
      some ("runtime_error: " ++ "io fail") ∧
    (probe_port_for_number_with_ussd "COM3" ["*0#"]
        { openResult := Except.ok (), atResp := Except.error "io fail",
          cpinResp := Except.ok "READY", ussdResp := fun _ => Except.ok "",
          closeNoOk := Except.ok (), closeNotReady := Except.ok (),
          closeMain := Except.ok () }).error =
      some ("runtime_error: " ++ "io fail") := by
  have hA := C10_probes_capture_faults "COM3"
    { openResult := Except.error "busy", atResp := Except.ok "OK",
      cnumResp := Except.ok "", closeNoOk := Except.ok (),
      closeMain := Except.ok () } ["*0#"]
    { openResult := Except.error "busy", atResp := Except.ok "OK",
      cpinResp := Except.ok "READY", ussdResp := fun _ => Except.ok "",
      closeNoOk := Except.ok (), closeNotReady := Except.ok (),
      closeMain := Except.ok () }
  have hB := C10_probes_capture_faults "COM3"
    { openResult := Except.ok (), atResp := Except.error "io fail",
      cnumResp := Except.ok "", closeNoOk := Except.ok (),
      closeMain := Except.ok () } ["*0#"]
    { openResult := Except.ok (), atResp := Except.error "io fail",
      cpinResp := Except.ok "READY", ussdResp := fun _ => Except.ok "",
      closeNoOk := Except.ok (), closeNotReady := Except.ok (),
      closeMain := Except.ok () }
  exact ⟨hA.1, hA.2.1, hA.2.2.1 "busy" rfl, hA.2.2.2.1 "busy" rfl,
    hB.2.2.2.2.1 "io fail" rfl rfl,
    hB.2.2.2.2.2.2.2.2.1 "io fail" rfl rfl⟩

end SimTool
